import Mathlib

/-!
Formal model of `update_data.py`, the Excel → JSON normalizer for the MSTR
Bitcoin-holdings page.  The script reads a spreadsheet (skipping 3 header
rows), renames columns positionally, filters summary rows, reconstructs the
implicit year grouping while walking the rows, emits one record per accepted
month row, sorts by (year, month) and writes `data.json`.

Numeric cell values are modelled as exact rationals; Python exceptions during
the conversion are modelled with `Except`.  `main`'s observable behaviour
(console output, the file write, the exit status) is modelled as a trace of
effects plus an exit code.
-/

namespace UpdateData

/-- A cell as the script sees it after `pd.read_excel`: missing (`NaN`),
a numeric value, or a text value. -/
inductive Cell where
  | nan : Cell
  | num : ℚ → Cell
  | str : String → Cell
deriving Repr, DecidableEq

/-- `period.replace('.', '')`: the string with every `'.'` removed. -/
def stripDots (s : String) : String :=
  String.mk (s.data.filter (fun c => c != '.'))

/-- Python `str.isdigit()`: nonempty and every character a digit
(restricted to ASCII digits; other Unicode digit characters do not occur in
these spreadsheets). -/
def pyIsDigit (s : String) : Bool :=
  !s.data.isEmpty && s.data.all Char.isDigit

/-- Numeric value of a list of ASCII digits, most significant first. -/
def natOfDigits (cs : List Char) : Nat :=
  cs.foldl (fun a c => a * 10 + (c.toNat - 48)) 0

/-- Python `str.strip()` on a character list: drop whitespace from both
ends. -/
def pyStrip (cs : List Char) : List Char :=
  ((cs.dropWhile Char.isWhitespace).reverse.dropWhile Char.isWhitespace).reverse

/-- Python `float(s)` restricted to the string shapes this script can feed
it: optional surrounding whitespace, an optional sign, then digits with at
most one `'.'` and at least one digit.  Exponent notation, `inf`/`nan` and
underscore separators are outside the model; they do not occur in these
spreadsheets.  Any other string raises `ValueError`, modelled as `.error`. -/
def pyFloatOfString (s : String) : Except String ℚ :=
  let t := pyStrip s.data
  let sgn : ℚ := if t.head? = some '-' then -1 else 1
  let u := if t.head? = some '-' ∨ t.head? = some '+' then t.drop 1 else t
  if u.all (fun c => c.isDigit || c == '.') &&
      (u.filter (fun c => c == '.')).length ≤ 1 &&
      1 ≤ (u.filter Char.isDigit).length then
    let ip := u.takeWhile (fun c => c != '.')
    let fp := (u.dropWhile (fun c => c != '.')).drop 1
    .ok (sgn * ((natOfDigits ip : ℚ) + (natOfDigits fp : ℚ) / ((10 : ℚ) ^ fp.length)))
  else
    .error ("could not convert string to float: " ++ s)

/-- Python `int(s)` on a string: optional surrounding whitespace, an optional
sign, then digits only — in particular a string containing `'.'` raises
`ValueError`, modelled as `.error`. -/
def pyIntOfString (s : String) : Except String Int :=
  let t := pyStrip s.data
  let sgn : Int := if t.head? = some '-' then -1 else 1
  let u := if t.head? = some '-' ∨ t.head? = some '+' then t.drop 1 else t
  if !u.isEmpty && u.all Char.isDigit then
    .ok (sgn * (natOfDigits u : Int))
  else
    .error ("invalid literal for int: " ++ s)

/-- Python `int(x)` applied to a numeric value: truncation toward zero
(`Int.div` is T-division). -/
def pyTrunc (q : ℚ) : Int :=
  q.num.tdiv (q.den : Int)

/-- `needle` occurs as a contiguous substring of the second list. -/
def hasSubstr (needle : List Char) : List Char → Bool
  | [] => needle.isEmpty
  | c :: cs => needle.isPrefixOf (c :: cs) || hasSubstr needle cs

/-- The summary-row filter
`df['Period'].astype(str).str.contains('Grand Total|Row Labels')`:
the regex matches iff one of the two literals occurs as a substring. -/
def isSummaryLabel (p : String) : Bool :=
  hasSubstr "Grand Total".data p.data || hasSubstr "Row Labels".data p.data

/-- One data row after the header block, with the columns the script assigns.
`period` is the row's `Period` cell after `str(...)` conversion (both the
summary filter and the classification convert it with `str`).  The other
nine fields are the cells of columns 2–10; when the dataset has fewer than
10 columns the five extended cells are never read. -/
structure Row where
  period : String
  avg_btc_price : Cell
  mstr_btc_holdings : Cell
  mstr_holdings_value : Cell
  btc_closing_price : Cell
  mstr_market_cap : Cell
  mstr_share_price : Cell
  shares_outstanding : Cell
  total_debt : Cell
  other_assets : Cell
deriving Repr, DecidableEq

/-- The dataframe produced by `pd.read_excel(path, skiprows=3)`: its column
count and its rows. -/
structure Dataset where
  ncols : Nat
  rows : List Row
deriving Repr, DecidableEq

/-- One output record (the `entry` dict of the source, with the same keys). -/
structure Entry where
  year : Int
  month : Int
  avg_btc_price : ℚ
  mstr_btc_holdings : ℚ
  mstr_holdings_value : ℚ
  btc_closing_price : ℚ
  mstr_market_cap : ℚ
  mstr_share_price : ℚ
  shares_outstanding : ℚ
  total_debt : ℚ
  other_assets : ℚ
deriving Repr, DecidableEq

/-- `float(row[col]) if pd.notna(row[col]) else 0`: a missing cell becomes 0,
a numeric cell keeps its value, and a text cell goes through `float(...)`,
which can raise. -/
def readCell (c : Cell) : Except String ℚ :=
  match c with
  | .nan => .ok 0
  | .num q => .ok q
  | .str s => pyFloatOfString s

/-- Construction of one `entry` for an accepted month row: the four required
metrics, then either the five extended metrics (when `has_mnav_data`) or
zero placeholders. -/
def buildEntry (has_mnav_data : Bool) (year month : Int) (r : Row) :
    Except String Entry :=
  match readCell r.avg_btc_price with
  | .error e => .error e
  | .ok a =>
  match readCell r.mstr_btc_holdings with
  | .error e => .error e
  | .ok h =>
  match readCell r.mstr_holdings_value with
  | .error e => .error e
  | .ok v =>
  match readCell r.btc_closing_price with
  | .error e => .error e
  | .ok c =>
  if has_mnav_data then
    match readCell r.mstr_market_cap with
    | .error e => .error e
    | .ok mc =>
    match readCell r.mstr_share_price with
    | .error e => .error e
    | .ok sp =>
    match readCell r.shares_outstanding with
    | .error e => .error e
    | .ok so =>
    match readCell r.total_debt with
    | .error e => .error e
    | .ok td =>
    match readCell r.other_assets with
    | .error e => .error e
    | .ok oa => .ok ⟨year, month, a, h, v, c, mc, sp, so, td, oa⟩
  else
    .ok ⟨year, month, a, h, v, c, 0, 0, 0, 0, 0⟩

/-- Year-row test:
`period.replace('.', '').isdigit() and len(period) == 4` — note the length
test is applied to the original string, dots included. -/
def isYearMarker (period : String) : Bool :=
  pyIsDigit (stripDots period) && period.length == 4

/-- Month-branch guard: `period.replace('.', '').isdigit() and current_year`
(a Python string is truthy iff it is nonempty). -/
def isMonthCandidate (period current_year : String) : Bool :=
  pyIsDigit (stripDots period) && current_year != ""

/-- The row loop of `convert_excel_to_json`: one forward pass carrying
`current_year` (initially the empty string).  A year row updates it and
emits nothing; a month row parses `int(float(period))` and, when the month
is at most 12, emits an entry built from the current year and the row's
cells; anything else is skipped.  A `ValueError` from `float(...)` or
`int(...)` propagates as `.error`. -/
def processRows (has_mnav_data : Bool) :
    List Row → String → Except String (List Entry)
  | [], _ => .ok []
  | r :: rs, current_year =>
    if isYearMarker r.period then
      processRows has_mnav_data rs r.period
    else if isMonthCandidate r.period current_year then
      match pyFloatOfString r.period with
      | .error e => .error e
      | .ok q =>
        if pyTrunc q ≤ 12 then
          match pyIntOfString current_year with
          | .error e => .error e
          | .ok year =>
          match buildEntry has_mnav_data year (pyTrunc q) r with
          | .error e => .error e
          | .ok entry =>
          match processRows has_mnav_data rs current_year with
          | .error e => .error e
          | .ok rest => .ok (entry :: rest)
        else
          processRows has_mnav_data rs current_year
    else
      processRows has_mnav_data rs current_year

/-- `data.sort(key=lambda x: (x['year'], x['month']))`: the lexicographic
order on the (year, month) key. -/
def entryLe (a b : Entry) : Prop :=
  a.year < b.year ∨ (a.year = b.year ∧ a.month ≤ b.month)

instance : DecidableRel entryLe := fun a b => by
  unfold entryLe; infer_instance

instance : IsTotal Entry entryLe := ⟨by intro a b; unfold entryLe; omega⟩

instance : IsTrans Entry entryLe := ⟨by intro a b c; unfold entryLe; omega⟩

/-- Python `list.sort` is a stable sort, and a stable sort's output is
uniquely determined by the comparison key, so any stable sort models it;
`List.insertionSort` is stable. -/
def sortEntries (l : List Entry) : List Entry :=
  l.insertionSort entryLe

/-- `convert_excel_to_json`: drop summary rows, run the row pass with an
empty initial `current_year`, sort by (year, month), and return the records
together with the flag `has_mnav_data = (column count ≥ 10)`.  When the
dataset has fewer than 5 columns the semantic column names are never
assigned, so the first `df['Period']` access raises a `KeyError`, modelled
as `.error`. -/
def convert_excel_to_json (ds : Dataset) : Except String (List Entry × Bool) :=
  if ds.ncols < 5 then .error "KeyError: Period"
  else
    let has_mnav_data := decide (10 ≤ ds.ncols)
    let rows := ds.rows.filter (fun r => !isSummaryLabel r.period)
    match processRows has_mnav_data rows "" with
    | .error e => .error e
    | .ok data => .ok (sortEntries data, has_mnav_data)

/-- `calculate_mnav` from the source, over exact rationals. -/
def calculate_mnav (btc_holdings_value other_assets total_debt
    shares_outstanding : ℚ) : ℚ :=
  if shares_outstanding = 0 then 0
  else (btc_holdings_value + other_assets - total_debt) / shares_outstanding

/-- `calculate_premium_discount` from the source. -/
def calculate_premium_discount (share_price mnav : ℚ) : ℚ :=
  if mnav = 0 then 0
  else ((share_price - mnav) / mnav) * 100

/-- Observable actions of `main`, in program order. -/
inductive Eff where
  | printUsage : Eff
  | readInput : String → Eff
  | writeOutput : List Entry → Bool → Eff
  | printSuccess : Nat → Eff
  | printLatest : Entry → Eff
  | printMnavMetrics : ℚ → ℚ → ℚ → ℚ → Eff
  | printHint : Eff
  | printError : String → Eff
deriving Repr, DecidableEq

/-- The success-path console summary (the `if data:` block of `main`). -/
def summaryEffs (data : List Entry) (has_mnav : Bool) : List Eff :=
  match data.getLast? with
  | none => []
  | some latest =>
    Eff.printLatest latest ::
      (if has_mnav && decide (0 < latest.shares_outstanding) then
        let mnav := calculate_mnav latest.mstr_holdings_value
          latest.other_assets latest.total_debt latest.shares_outstanding
        let premium := calculate_premium_discount latest.mstr_share_price mnav
        [Eff.printMnavMetrics latest.mstr_share_price mnav premium
          latest.mstr_market_cap]
      else if !has_mnav then [Eff.printHint] else [])

/-- The body of `main`'s `try` block up to the point where the output is
known: read the spreadsheet, then convert; either step can raise. -/
def runConvert (readExcel : String → Except String Dataset) (path : String) :
    Except String (List Entry × Bool) :=
  match readExcel path with
  | .error e => .error e
  | .ok ds => convert_excel_to_json ds

/-- `main`: with an argument count other than exactly one positional
argument it prints usage and exits 1 before touching any file; otherwise it
reads and converts, and on failure prints the error and exits 1 without
writing, while on success it writes `data.json`, prints the summary and
exits 0.  `argv` is the full `sys.argv` (program name included);
`readExcel` models `pd.read_excel` on the given path.  The result is the
effect trace and the exit status. -/
def mainRun (argv : List String)
    (readExcel : String → Except String Dataset) : List Eff × Nat :=
  if argv.length != 2 then ([Eff.printUsage], 1)
  else
    let path := argv.getD 1 ""
    match runConvert readExcel path with
    | .error e => ([Eff.readInput path, Eff.printError e], 1)
    | .ok (data, has_mnav) =>
      (Eff.readInput path :: Eff.writeOutput data has_mnav ::
        Eff.printSuccess data.length :: summaryEffs data has_mnav, 0)

/-! ### Concrete inputs -/

/-- A row whose period label is `p` and whose other cells are all empty. -/
def blankRow (p : String) : Row :=
  ⟨p, .nan, .nan, .nan, .nan, .nan, .nan, .nan, .nan, .nan⟩

/-- The all-zero record for a given (year, month). -/
def entryZ (y m : Int) : Entry :=
  ⟨y, m, 0, 0, 0, 0, 0, 0, 0, 0, 0⟩

/-- A dataset in which the (2020, 3) pair occurs twice. -/
def ds_dup : Dataset := ⟨5, [blankRow "2020", blankRow "3", blankRow "3"]⟩

/-- A dataset with a month row `"0"`. -/
def ds_month0 : Dataset := ⟨5, [blankRow "2020", blankRow "0"]⟩

/-- A dataset with the period label `"2020."` between a year row and a month
row. -/
def ds_yearDot : Dataset := ⟨5, [blankRow "2016", blankRow "2020.", blankRow "3"]⟩

/-- A dataset whose month row carries a non-numeric text cell. -/
def ds_badCell : Dataset :=
  ⟨5, [blankRow "2020", ⟨"3", .str "abc", .nan, .nan, .nan, .nan, .nan, .nan, .nan, .nan⟩]⟩

/-- A minimal well-formed dataset: one year row, one month row. -/
def ds_basic : Dataset := ⟨5, [blankRow "2020", blankRow "3"]⟩

/-- The year-marker test as the claim words it: the dot-stripped string is
all digits and the DOT-STRIPPED string has length exactly 4.  Stated from
the claim's words only, for comparison with `isYearMarker` from the code. -/
def claimYearMarker (p : String) : Bool :=
  pyIsDigit (stripDots p) && (stripDots p).length == 4

/-! ### Helper lemmas -/

theorem mem_of_mem_pyStrip {c : Char} {cs : List Char} (h : c ∈ pyStrip cs) :
    c ∈ cs := by
  unfold pyStrip at h
  rw [List.mem_reverse] at h
  have h2 := (List.dropWhile_sublist _).subset h
  rw [List.mem_reverse] at h2
  exact (List.dropWhile_sublist _).subset h2

theorem digit_or_dot_of_guard {p : String} (h : pyIsDigit (stripDots p) = true) :
    ∀ c ∈ p.data, c = '.' ∨ c.isDigit = true := by
  intro c hc
  by_cases hdot : c = '.'
  · exact Or.inl hdot
  · refine Or.inr ?_
    have hmem : c ∈ (stripDots p).data := by
      show c ∈ p.data.filter (fun c => c != '.')
      exact List.mem_filter.mpr ⟨hc, by simpa using hdot⟩
    unfold pyIsDigit at h
    rw [Bool.and_eq_true, List.all_eq_true] at h
    exact h.2 c hmem

theorem pyFloatOfString_nonneg {p : String} {q : ℚ}
    (hall : ∀ c ∈ p.data, c = '.' ∨ c.isDigit = true)
    (hok : pyFloatOfString p = .ok q) : 0 ≤ q := by
  have hhead : ∀ c, (pyStrip p.data).head? = some c → c = '.' ∨ c.isDigit = true := by
    intro c hc
    exact hall c (mem_of_mem_pyStrip (List.mem_of_mem_head? hc))
  have hminus : ¬ (pyStrip p.data).head? = some '-' := by
    intro hc
    rcases hhead _ hc with h | h
    · exact absurd h (by decide)
    · exact absurd h (by decide)
  have hplus : ¬ (pyStrip p.data).head? = some '+' := by
    intro hc
    rcases hhead _ hc with h | h
    · exact absurd h (by decide)
    · exact absurd h (by decide)
  unfold pyFloatOfString at hok
  simp only [if_neg hminus, if_neg (show ¬((pyStrip p.data).head? = some '-' ∨
    (pyStrip p.data).head? = some '+') from fun hc => hc.elim hminus hplus)] at hok
  split at hok
  · injection hok with hv
    rw [← hv]
    positivity
  · exact absurd hok (by simp)

theorem pyTrunc_nonneg {q : ℚ} (h : 0 ≤ q) : 0 ≤ pyTrunc q := by
  unfold pyTrunc
  exact Int.tdiv_nonneg (Rat.num_nonneg.mpr h) (by positivity)

theorem buildEntry_ok {hm : Bool} {y m : Int} {r : Row} {e : Entry}
    (h : buildEntry hm y m r = .ok e) :
    e.year = y ∧ e.month = m ∧
      readCell r.avg_btc_price = .ok e.avg_btc_price ∧
      readCell r.mstr_btc_holdings = .ok e.mstr_btc_holdings ∧
      readCell r.mstr_holdings_value = .ok e.mstr_holdings_value ∧
      readCell r.btc_closing_price = .ok e.btc_closing_price ∧
      (hm = false → e.mstr_market_cap = 0 ∧ e.mstr_share_price = 0 ∧
        e.shares_outstanding = 0 ∧ e.total_debt = 0 ∧ e.other_assets = 0) := by
  unfold buildEntry at h
  repeat' split at h
  all_goals first
    | exact Except.noConfusion h
    | (injection h with h; subst h; simp_all)

theorem processRows_inv (hm : Bool) :
    ∀ (rows : List Row) (cy : String) (es : List Entry),
      processRows hm rows cy = .ok es →
      ∀ e ∈ es, (0 ≤ e.month ∧ e.month ≤ 12) ∧
        (hm = false → e.mstr_market_cap = 0 ∧ e.mstr_share_price = 0 ∧
          e.shares_outstanding = 0 ∧ e.total_debt = 0 ∧ e.other_assets = 0)
  | [], cy, es, h, e, he => by
      rw [processRows] at h
      injection h with h
      subst h
      exact absurd he (by simp)
  | r :: rs, cy, es, h, e, he => by
      rw [processRows] at h
      split at h
      · exact processRows_inv hm rs r.period es h e he
      · split at h
        · rename_i hyear hmonth
          split at h
          · exact Except.noConfusion h
          · rename_i q hq
            split at h
            · rename_i hle
              split at h
              · exact Except.noConfusion h
              · rename_i year hyearok
                split at h
                · exact Except.noConfusion h
                · rename_i entry hentry
                  split at h
                  · exact Except.noConfusion h
                  · rename_i rest hrest
                    injection h with h
                    subst h
                    rcases List.mem_cons.mp he with rfl | hmem
                    · obtain ⟨-, hmonth_eq, -, -, -, -, hzeros⟩ := buildEntry_ok hentry
                      refine ⟨⟨?_, ?_⟩, hzeros⟩
                      · rw [hmonth_eq]
                        have hdig : pyIsDigit (stripDots r.period) = true := by
                          have h' := hmonth
                          simp only [isMonthCandidate, Bool.and_eq_true] at h'
                          exact h'.1
                        exact pyTrunc_nonneg
                          (pyFloatOfString_nonneg (digit_or_dot_of_guard hdig) hq)
                      · rw [hmonth_eq]; exact hle
                    · exact processRows_inv hm rs cy rest hrest e hmem
            · exact processRows_inv hm rs cy es h e he
        · exact processRows_inv hm rs cy es h e he

theorem convert_ok {ds : Dataset} {out : List Entry} {f : Bool}
    (h : convert_excel_to_json ds = .ok (out, f)) :
    f = decide (10 ≤ ds.ncols) ∧
    ∃ data, processRows (decide (10 ≤ ds.ncols))
        (ds.rows.filter (fun r => !isSummaryLabel r.period)) "" = .ok data ∧
      out = sortEntries data := by
  simp only [convert_excel_to_json] at h
  split at h
  · exact Except.noConfusion h
  · split at h
    · exact Except.noConfusion h
    · rename_i data hdata
      injection h with h
      rw [Prod.mk.injEq] at h
      exact ⟨h.2.symm, data, hdata, h.1.symm⟩

/-! ### Claims -/

/-- Claim C1, counterexample: on `ds_dup` the pair (2020, 3) is encountered
twice and the output contains two records for it, so the output is neither
strictly ordered nor one-record-per-pair. -/
theorem C1_cex :
    convert_excel_to_json ds_dup = .ok ([entryZ 2020 3, entryZ 2020 3], false) ∧
    ¬ List.Pairwise (fun a b : Entry => a.year < b.year ∨ (a.year = b.year ∧ a.month < b.month))
        [entryZ 2020 3, entryZ 2020 3] ∧
    ¬ (([entryZ 2020 3, entryZ 2020 3].filter
        (fun e => e.year == 2020 && e.month == 3)).length ≤ 1) := by
  refine ⟨by with_unfolding_all rfl, ?_, by decide⟩
  intro hp
  have h2 := List.rel_of_pairwise_cons hp (List.mem_cons_self _ _)
  simp [entryZ] at h2

/-- Claim C1 (amended): the output is sorted by (year, month) in
non-decreasing lexicographic order, and is a permutation of the records the
row pass emitted (one per accepted month row, so a repeated (year, month)
pair yields duplicate records). -/
theorem C1_output_sorted (ds : Dataset) (out : List Entry) (f : Bool)
    (h : convert_excel_to_json ds = .ok (out, f)) :
    out.Pairwise entryLe ∧
    ∃ data, processRows (decide (10 ≤ ds.ncols))
        (ds.rows.filter (fun r => !isSummaryLabel r.period)) "" = .ok data ∧
      out.Perm data := by
  obtain ⟨-, data, hdata, rfl⟩ := convert_ok h
  exact ⟨List.sorted_insertionSort entryLe data, data, hdata,
    List.perm_insertionSort entryLe data⟩

/-- Claim C1, witness for the amended theorem at `ds_dup`. -/
theorem C1_output_sorted_witness :
    List.Pairwise entryLe [entryZ 2020 3, entryZ 2020 3] :=
  (C1_output_sorted ds_dup [entryZ 2020 3, entryZ 2020 3] false
    (by with_unfolding_all rfl)).1

/-- Claim C2, counterexample: the code only discards months above 12, so the
period `"0"` yields an output record with month 0, outside [1, 12]. -/
theorem C2_cex :
    convert_excel_to_json ds_month0 = .ok ([entryZ 2020 0], false) ∧
    ¬ (1 ≤ (entryZ 2020 0).month) := by
  exact ⟨by with_unfolding_all rfl, by decide⟩

/-- Claim C2 (amended): a month row parsing above 12 is discarded, and every
emitted record's month lies in [0, 12] (0 is reachable, so the lower bound
is 0, not 1). -/
theorem C2_month_bounds (ds : Dataset) (out : List Entry) (f : Bool)
    (h : convert_excel_to_json ds = .ok (out, f)) :
    ∀ e ∈ out, 0 ≤ e.month ∧ e.month ≤ 12 := by
  obtain ⟨-, data, hdata, rfl⟩ := convert_ok h
  intro e he
  have hm : e ∈ data := (List.perm_insertionSort entryLe data).subset he
  exact (processRows_inv _ _ _ _ hdata e hm).1

/-- Claim C2, witness for the amended theorem at `ds_basic`. -/
theorem C2_month_bounds_witness :
    0 ≤ (entryZ 2020 3).month ∧ (entryZ 2020 3).month ≤ 12 :=
  C2_month_bounds ds_basic [entryZ 2020 3] false (by with_unfolding_all rfl)
    _ (List.mem_singleton_self _)


/-- Claim C3, counterexample: `"2020."` satisfies the claim's condition
(dot-stripped form `"2020"` is all digits of length 4) but the code does not
treat it as a year marker: in `ds_yearDot` the row `"2020."` leaves the
current year at `"2016"`, so the following month row is emitted with
year 2016. -/
theorem C3_cex :
    claimYearMarker "2020." = true ∧
    isYearMarker "2020." = false ∧
    convert_excel_to_json ds_yearDot = .ok ([entryZ 2016 3], false) := by
  exact ⟨by decide, by decide, by with_unfolding_all rfl⟩

/-- Claim C3 (amended): the length test is applied to the original Period
string: if the dot-stripped string is all digits and the ORIGINAL string has
length exactly 4, the row updates the current-year accumulator and emits no
record. -/
theorem C3_year_marker_update (hm : Bool) (r : Row) (rs : List Row) (cy : String)
    (h1 : pyIsDigit (stripDots r.period) = true) (h2 : r.period.length = 4) :
    processRows hm (r :: rs) cy = processRows hm rs r.period := by
  rw [processRows, if_pos]
  simp [isYearMarker, h1, h2]

/-- Claim C3, witness for the amended theorem at the row `"2020"`. -/
theorem C3_year_marker_update_witness :
    processRows false [blankRow "2020"] "" = processRows false [] "2020" :=
  C3_year_marker_update false (blankRow "2020") [] "" (by decide) (by decide)

/-- Claim C4, counterexample: a non-numeric text cell in a required column
does not default to 0 — `float('abc')` raises, aborting the whole run. -/
theorem C4_cex :
    convert_excel_to_json ds_badCell =
      .error "could not convert string to float: abc" := by
  with_unfolding_all rfl

/-- Claim C4 (amended): an empty (NaN) required cell defaults to exactly 0
in the emitted record; a non-empty unparseable cell instead aborts the run
with the `float` conversion error. -/
theorem C4_default_fill (hm : Bool) (y m : Int) (r : Row) :
    (∀ e, buildEntry hm y m r = .ok e →
      (r.avg_btc_price = Cell.nan → e.avg_btc_price = 0) ∧
      (r.mstr_btc_holdings = Cell.nan → e.mstr_btc_holdings = 0) ∧
      (r.mstr_holdings_value = Cell.nan → e.mstr_holdings_value = 0) ∧
      (r.btc_closing_price = Cell.nan → e.btc_closing_price = 0)) ∧
    (∀ s msg, r.avg_btc_price = Cell.str s → pyFloatOfString s = .error msg →
      buildEntry hm y m r = .error msg) := by
  constructor
  · intro e he
    obtain ⟨-, -, h1, h2, h3, h4, -⟩ := buildEntry_ok he
    refine ⟨?_, ?_, ?_, ?_⟩ <;> intro hn
    · rw [hn] at h1; simp only [readCell] at h1; injection h1 with h1; exact h1.symm
    · rw [hn] at h2; simp only [readCell] at h2; injection h2 with h2; exact h2.symm
    · rw [hn] at h3; simp only [readCell] at h3; injection h3 with h3; exact h3.symm
    · rw [hn] at h4; simp only [readCell] at h4; injection h4 with h4; exact h4.symm
  · intro s msg hs hmsg
    unfold buildEntry
    rw [hs]
    simp [readCell, hmsg]

/-- Claim C4, witness for the amended theorem on a row of empty cells. -/
theorem C4_default_fill_witness : (entryZ 2020 3).avg_btc_price = 0 :=
  (((C4_default_fill false 2020 3 (blankRow "3")).1 (entryZ 2020 3) rfl).1) rfl

/-- Claim C5 (confirmed): extended-column processing is active iff the
dataset has at least 10 columns, decided once per run; when inactive, every
record's five extended fields are exactly 0. -/
theorem C5_extended_flag (ds : Dataset) (out : List Entry) (f : Bool)
    (h : convert_excel_to_json ds = .ok (out, f)) :
    (f = true ↔ 10 ≤ ds.ncols) ∧
    (f = false → ∀ e ∈ out, e.mstr_market_cap = 0 ∧ e.mstr_share_price = 0 ∧
      e.shares_outstanding = 0 ∧ e.total_debt = 0 ∧ e.other_assets = 0) := by
  obtain ⟨hf, data, hdata, rfl⟩ := convert_ok h
  constructor
  · subst hf; simp
  · intro hfalse e he
    have hm : e ∈ data := (List.perm_insertionSort entryLe data).subset he
    refine (processRows_inv _ _ _ _ hdata e hm).2 ?_
    rw [hf] at hfalse
    exact hfalse

/-- Claim C5, witness at `ds_basic` (5 columns, flag off, zero placeholders). -/
theorem C5_extended_flag_witness : (entryZ 2020 3).mstr_market_cap = 0 :=
  ((C5_extended_flag ds_basic [entryZ 2020 3] false
    (by with_unfolding_all rfl)).2 rfl _ (List.mem_singleton_self _)).1

/-- Claim C6 (confirmed): `mnav` is 0 when shares outstanding is 0 and
otherwise equals (holdings + other assets - debt) / shares;
`premium_discount` is 0 when mnav is 0 and otherwise the percentage
deviation. -/
theorem C6_zero_guards (x y z s p m : ℚ) :
    calculate_mnav x y z 0 = 0 ∧
    calculate_premium_discount p 0 = 0 ∧
    (s ≠ 0 → calculate_mnav x y z s = (x + y - z) / s) ∧
    (m ≠ 0 → calculate_premium_discount p m = ((p - m) / m) * 100) := by
  refine ⟨?_, ?_, ?_, ?_⟩
  · simp [calculate_mnav]
  · simp [calculate_premium_discount]
  · intro hs; simp [calculate_mnav, hs]
  · intro hm; simp [calculate_premium_discount, hm]

/-- Claim C6, witness at concrete arguments. -/
theorem C6_zero_guards_witness : calculate_mnav 1 2 3 4 = (1 + 2 - 3) / 4 :=
  (C6_zero_guards 1 2 3 4 5 6).2.2.1 (by norm_num)

/-- Claim C7 (confirmed): if reading or converting raises, the run exits
with a non-zero status, prints the error, and never performs the output
write (the write effect would only occur after a successful conversion). -/
theorem C7_failure_no_write (argv : List String)
    (readExcel : String → Except String Dataset) (msg : String)
    (hlen : argv.length = 2)
    (herr : runConvert readExcel (argv.getD 1 "") = .error msg) :
    (mainRun argv readExcel).2 ≠ 0 ∧
    Eff.printError msg ∈ (mainRun argv readExcel).1 ∧
    ∀ d hf, Eff.writeOutput d hf ∉ (mainRun argv readExcel).1 := by
  simp only [mainRun]
  rw [if_neg (by simp [hlen]), herr]
  simp

/-- Claim C7, witness: a failing read on a two-argument invocation. -/
theorem C7_failure_no_write_witness :
    Eff.printError "boom" ∈
      (mainRun ["update_data.py", "data.xlsx"] (fun _ => .error "boom")).1 :=
  (C7_failure_no_write ["update_data.py", "data.xlsx"]
    (fun _ => .error "boom") "boom" rfl rfl).2.1

/-- Claim C8 (confirmed): any argument count other than one positional
argument yields exactly the usage message and exit status 1, with no file
read and no write. -/
theorem C8_usage_wrong_argc (argv : List String)
    (readExcel : String → Except String Dataset) (h : argv.length ≠ 2) :
    mainRun argv readExcel = ([Eff.printUsage], 1) ∧
    (∀ p, Eff.readInput p ∉ (mainRun argv readExcel).1) ∧
    (∀ d hf, Eff.writeOutput d hf ∉ (mainRun argv readExcel).1) := by
  have heq : mainRun argv readExcel = ([Eff.printUsage], 1) := by
    unfold mainRun
    rw [if_pos (by simpa using h)]
  refine ⟨heq, ?_, ?_⟩ <;> simp [heq]

/-- Claim C8, witness: invocation with no positional argument. -/
theorem C8_usage_wrong_argc_witness :
    mainRun ["update_data.py"] (fun _ => .error "unused") = ([Eff.printUsage], 1) :=
  (C8_usage_wrong_argc ["update_data.py"] (fun _ => .error "unused") (by decide)).1

/-- Claim C9 (confirmed): the conversion is a pure function of the input
dataset — two runs on the same input produce the same record list and the
same extended-data flag, hence byte-identical serialized output. -/
theorem C9_deterministic (ds : Dataset) (out1 : List Entry) (f1 : Bool)
    (out2 : List Entry) (f2 : Bool)
    (h1 : convert_excel_to_json ds = .ok (out1, f1))
    (h2 : convert_excel_to_json ds = .ok (out2, f2)) :
    out1 = out2 ∧ f1 = f2 := by
  rw [h1] at h2
  injection h2 with h2
  rw [Prod.mk.injEq] at h2
  exact h2

/-- Claim C9, witness: two runs on `ds_basic`. -/
theorem C9_deterministic_witness :
    ([entryZ 2020 3] : List Entry) = [entryZ 2020 3] ∧ (false : Bool) = false :=
  C9_deterministic ds_basic [entryZ 2020 3] false [entryZ 2020 3] false
    (by with_unfolding_all rfl) (by with_unfolding_all rfl)

/-- Claim C10 (confirmed): for a Period string whose dot-stripped form is
all digits, the year-marker classification holds exactly when the ORIGINAL
string (dots included) has length 4 — so `"20.2"` is a year marker and
`"2020."` is not. -/
theorem C10_length_test_original (s : String)
    (h : pyIsDigit (stripDots s) = true) :
    isYearMarker s = true ↔ s.length = 4 := by
  simp [isYearMarker, h]

/-- Claim C10, witness at `"20.2"`. -/
theorem C10_length_test_original_witness : isYearMarker "20.2" = true :=
  (C10_length_test_original "20.2" (by decide)).mpr (by decide)

end UpdateData
